import Mathlib

/-!
Shallow embedding of `src/remarkable.ts` (the `Remarkable` cloud-storage
client class) and proofs about its session/token lifecycle, document
directory operations and three-phase upload protocol.

Modelling conventions:
* The mutable instance fields of the `Remarkable` class
  (`token`, `deviceToken`, `storageUrl`, `notificationUrl`, `zip`)
  become the record `RState`; every method is a function
  `Env → RState → Except RError α × RState × List Call`.
* `Env` is the transport oracle: it fixes the response the remote service
  gives to each kind of HTTP request, and the stream of UUIDs produced by
  the identity generator (`uuidv4` is modelled as a counter into
  `Env.uuidSeq`).
* `List Call` is the trace of transport requests the method issued, in
  order, so that claims of the form "no further transport call is issued"
  are statements about the trace.
* JavaScript exceptions become `Except.error`; the distinct `Error`
  messages thrown by the source are mapped to the constructors of
  `RError` (the spec's error taxonomy).  Accessing `body[0]` of an empty
  array, or destructuring `undefined`, is a JavaScript `TypeError` and is
  modelled as `RError.typeError`.
* JSZip is modelled as an association list of named entries
  (`zipFileAdd` has JSZip's replace-or-append semantics); the serialized
  container buffer (`zip.generateAsync`) is identified with its entry
  list, since the archive writer is an external capability the core only
  passes through to the transfer phase.
-/

/-- Content-descriptor object `defaultPDFContent` from the source
(`extraMetadata: {}`, `fileType: 'pdf'`, `lastOpenedPage: 0`,
`lineHeight: -1`, `margins: 180`, `pageCount: 0`, `textScale: 1`,
`transform: {}`).  The two empty objects are modelled as empty
association lists. -/
structure PDFContent where
  extraMetadata : List (String × String)
  fileType : String
  lastOpenedPage : Nat
  lineHeight : Int
  margins : Nat
  pageCount : Nat
  textScale : Nat
  transform : List (String × String)
deriving DecidableEq, Repr

def defaultPDFContent : PDFContent :=
  { extraMetadata := []
    fileType := "pdf"
    lastOpenedPage := 0
    lineHeight := -1
    margins := 180
    pageCount := 0
    textScale := 1
    transform := [] }

/-- One entry of the in-memory JSZip package: the JSON-serialized content
descriptor, the empty `.pagedata` placeholder (`[]` in the source), or the
raw PDF bytes. -/
inductive ZipEntry where
  | contentDescriptor (c : PDFContent)
  | emptyEntry
  | pdfBytes (b : List Nat)
deriving DecidableEq, Repr

/-- JSZip `zip.file(name, data)`: replaces the entry when the name is
already present, otherwise appends it. -/
def zipFileAdd (entries : List (String × ZipEntry)) (name : String)
    (e : ZipEntry) : List (String × ZipEntry) :=
  if entries.any (fun p => p.1 = name) then
    entries.map (fun p => if p.1 = name then (name, e) else p)
  else
    entries ++ [(name, e)]

/-- Item record returned by the document-storage list endpoint (fields of
`ItemResponse` that `remarkable.ts` reads; the blob reference pair is
optional on the wire). -/
structure ItemResponse where
  ID : String
  Version : Nat
  VissibleName : String
  BlobURLGet : Option String
  BlobURLPut : Option String
deriving DecidableEq, Repr

/-- Per-item result `{ID, Success}` of the delete and update-status
endpoints (`ReturnType` in the source). -/
structure ReturnType where
  ID : String
  Success : Bool
deriving DecidableEq, Repr

/-- Per-item result of the upload-request endpoint
(`UploadRequestReturnType` in the source): success flag and optional
write URL. -/
structure UploadRequestReturnType where
  ID : String
  Success : Bool
  BlobURLPut : Option String
deriving DecidableEq, Repr

/-- Error taxonomy.  Each constructor stands for one distinct `throw`
site (or JavaScript runtime failure) of the source, under the names the
spec gives them. -/
inductive RError where
  /-- `'You need to call refreshToken() first'` /
  `'You must register your reMarkable first'`. -/
  | authenticationRequired
  /-- `'Must provide a code from ...'` in `register`. -/
  | registration
  /-- `"Couldn't find BlobURLGet in response"` in `downloadZip`. -/
  | blobNotFound
  /-- `'Error during the creation of the upload request'` in `uploadZip`. -/
  | uploadRequest
  /-- `'Error during the upload of the document'` in `uploadZip`. -/
  | uploadTransfer
  /-- `'Error during the update status of the metadata'` in `uploadZip`. -/
  | metadataUpdate
  /-- A failure raised by the transport itself (network / non-2xx). -/
  | transport
  /-- JavaScript `TypeError`: reading a property of `undefined`
  (`body[0].Success` on an empty array, destructuring an absent item). -/
  | typeError
deriving DecidableEq, Repr

/-- One transport request, as observed at the Transport Capability
boundary. -/
inductive Call where
  /-- `POST /token/json/2/user/new` (session-token refresh). -/
  | postTokenUser
  /-- `POST /token/json/2/device/new` (registration). -/
  | postDeviceNew
  /-- `GET /service/json/1/document-storage` (endpoint discovery). -/
  | getDiscoveryStorage
  /-- `GET /service/json/1/notifications` (endpoint discovery). -/
  | getDiscoveryNotifications
  /-- `GET {storage}/document-storage/json/2/docs?doc&withBlob`. -/
  | getDocs (doc : Option String) (withBlob : Bool)
  /-- `PUT {storage}/document-storage/json/2/delete`. -/
  | putDelete (id : String) (version : Nat)
  /-- `PUT {storage}/document-storage/json/2/upload/request`
  (upload phase 1). -/
  | putUploadRequest (id : String)
  /-- `PUT` of the container bytes to the write URL (upload phase 2). -/
  | putBlob (url : String) (payload : List (String × ZipEntry))
  /-- `PUT {storage}/document-storage/json/2/upload/update-status`
  (upload phase 3), carrying the metadata's `ID` and `VissibleName`. -/
  | putUpdateStatus (id : String) (name : String)
  /-- `got.stream(BlobURLGet)` (download). -/
  | streamGet (url : String)
deriving DecidableEq, Repr

def Call.isPutBlob : Call → Bool
  | Call.putBlob _ _ => true
  | _ => false

def Call.isPutUpdateStatus : Call → Bool
  | Call.putUpdateStatus _ _ => true
  | _ => false

def Call.isStreamGet : Call → Bool
  | Call.streamGet _ => true
  | _ => false

/-- Mutable instance state of one `Remarkable` object: the optional
session token, device token and the two cached endpoints, plus the
JSZip scratch package and the position in the UUID stream. -/
structure RState where
  token : Option String
  deviceToken : Option String
  storageUrl : Option String
  notificationUrl : Option String
  zipEntries : List (String × ZipEntry)
  uuidCounter : Nat
deriving DecidableEq, Repr

/-- Constructor `new Remarkable({deviceToken})`: stores the optional
device token, starts with no session token, no cached endpoints and a
fresh empty JSZip. -/
def mkRemarkable (deviceToken : Option String) : RState :=
  { token := none
    deviceToken := deviceToken
    storageUrl := none
    notificationUrl := none
    zipEntries := []
    uuidCounter := 0 }

/-- Transport / identity oracle: the responses the external services give
to each request, and the UUID stream.  A `Except.error ()` response
models a transport-level failure (network error or non-2xx status on a
simple call). -/
structure Env where
  /-- Body of `POST /token/json/2/user/new`. -/
  tokenResp : Except Unit String
  /-- Body of `POST /token/json/2/device/new`. -/
  registerResp : Except Unit String
  /-- `Host` of the document-storage discovery response. -/
  storageHost : Except Unit String
  /-- `Host` of the notifications discovery response. -/
  notificationsHost : Except Unit String
  /-- Body of the docs listing for a given `doc` filter and `withBlob`. -/
  docs : Option String → Bool → List ItemResponse
  /-- Body of the delete call for a given id and version. -/
  deleteResp : String → Nat → List ReturnType
  /-- Body of the upload-request call for a given id. -/
  uploadRequestResp : String → List UploadRequestReturnType
  /-- Status code of the `PUT` of the blob to a given write URL. -/
  blobPutStatus : String → Nat
  /-- Body of the update-status call for a given id. -/
  updateStatusResp : String → List ReturnType
  /-- Chunks delivered by `got.stream` for a given URL. -/
  streamChunks : String → List (List Nat)
  /-- The UUID stream sampled by `uuidv4()`. -/
  uuidSeq : Nat → String

/-- Result triple of one method run: outcome, post-state, and the trace
of transport requests issued. -/
abbrev RResult (α : Type) := Except RError α × RState × List Call

/-- JavaScript falsiness of an optional string (`!x` is true for both
`undefined` and `""`). -/
def strOptFalsy : Option String → Bool
  | none => true
  | some s => s = ""

/-- Private method `setToken`: installs the bearer token on the client
and records it on the instance. -/
def setToken (tok : String) (s : RState) : RState :=
  { s with token := some tok }

/-- Method `refreshToken()`: requires a device token, exchanges it for a
fresh session token at `POST /token/json/2/user/new` and installs it via
`setToken`. -/
def refreshToken (env : Env) (s : RState) : RResult String :=
  match s.deviceToken with
  | none => (Except.error RError.authenticationRequired, s, [])
  | some _ =>
    match env.tokenResp with
    | Except.error _ => (Except.error RError.transport, s, [Call.postTokenUser])
    | Except.ok body => (Except.ok body, setToken body s, [Call.postTokenUser])

/-- Method `getStorageUrl()`: returns the cached endpoint when present;
otherwise requires a session token, performs the discovery request and
caches `https://` ++ `Host`.  The `environment`/`group`/`apiVer` options
only alter the query string of the discovery URL and are not modelled. -/
def getStorageUrl (env : Env) (s : RState) : RResult String :=
  match s.storageUrl with
  | some u => (Except.ok u, s, [])
  | none =>
    match s.token with
    | none => (Except.error RError.authenticationRequired, s, [])
    | some _ =>
      match env.storageHost with
      | Except.error _ =>
        (Except.error RError.transport, s, [Call.getDiscoveryStorage])
      | Except.ok h =>
        let u := "https://" ++ h
        (Except.ok u, { s with storageUrl := some u },
          [Call.getDiscoveryStorage])

/-- Method `getNotificationsUrl()`: same shape as `getStorageUrl` with
the notifications discovery endpoint and a `wss://` prefix. -/
def getNotificationsUrl (env : Env) (s : RState) : RResult String :=
  match s.notificationUrl with
  | some u => (Except.ok u, s, [])
  | none =>
    match s.token with
    | none => (Except.error RError.authenticationRequired, s, [])
    | some _ =>
      match env.notificationsHost with
      | Except.error _ =>
        (Except.error RError.transport, s, [Call.getDiscoveryNotifications])
      | Except.ok h =>
        let u := "wss://" ++ h
        (Except.ok u, { s with notificationUrl := some u },
          [Call.getDiscoveryNotifications])

/-- Method `register({code, ...})`: rejects a falsy code before any
network call, `POST`s to the device-registration endpoint, stores the
returned device token, then awaits `refreshToken()` as a dependent step
before resolving with the device token. -/
def register (code : String) (env : Env) (s : RState) : RResult String :=
  if code = "" then (Except.error RError.registration, s, [])
  else
    match env.registerResp with
    | Except.error _ => (Except.error RError.transport, s, [Call.postDeviceNew])
    | Except.ok body =>
      let s1 := { s with deviceToken := some body }
      match refreshToken env s1 with
      | (Except.ok _, s2, t2) => (Except.ok body, s2, Call.postDeviceNew :: t2)
      | (Except.error e, s2, t2) =>
        (Except.error e, s2, Call.postDeviceNew :: t2)

/-- Private method `listItems({doc, withBlob})`: requires a session
token, resolves the storage endpoint, then issues the docs query. -/
def listItems (doc : Option String) (withBlob : Bool) (env : Env)
    (s : RState) : RResult (List ItemResponse) :=
  match s.token with
  | none => (Except.error RError.authenticationRequired, s, [])
  | some _ =>
    match getStorageUrl env s with
    | (Except.error e, s1, t1) => (Except.error e, s1, t1)
    | (Except.ok _, s1, t1) =>
      (Except.ok (env.docs doc withBlob), s1, t1 ++ [Call.getDocs doc withBlob])

/-- Method `getItemWithId(id)`: first element of
`listItems({doc: id})`; `[0]` of an empty JavaScript array is
`undefined`, modelled as `none`. -/
def getItemWithId (id : String) (env : Env) (s : RState) :
    RResult (Option ItemResponse) :=
  match listItems (some id) true env s with
  | (Except.error e, s1, t1) => (Except.error e, s1, t1)
  | (Except.ok l, s1, t1) => (Except.ok l.head?, s1, t1)

/-- Method `getAllItems()`: `listItems()` with the default arguments. -/
def getAllItems (env : Env) (s : RState) : RResult (List ItemResponse) :=
  listItems none true env s

/-- Method `deleteItem(id, version)`: resolves the storage endpoint
(which is where the session-token check happens for this method), `PUT`s
the single delete instruction and returns `body[0].Success`. -/
def deleteItem (id : String) (version : Nat) (env : Env) (s : RState) :
    RResult Bool :=
  match getStorageUrl env s with
  | (Except.error e, s1, t1) => (Except.error e, s1, t1)
  | (Except.ok _, s1, t1) =>
    let t := t1 ++ [Call.putDelete id version]
    match (env.deleteResp id version).head? with
    | none => (Except.error RError.typeError, s1, t)
    | some r => (Except.ok r.Success, s1, t)

/-- Method `downloadZip(id)`: requires a session token, destructures
`BlobURLGet` out of `getItemWithId(id)` (a `TypeError` when the item is
absent), rejects a falsy `BlobURLGet`, then opens the stream and
concatenates its chunks. -/
def downloadZip (id : String) (env : Env) (s : RState) :
    RResult (List Nat) :=
  match s.token with
  | none => (Except.error RError.authenticationRequired, s, [])
  | some _ =>
    match getItemWithId id env s with
    | (Except.error e, s1, t1) => (Except.error e, s1, t1)
    | (Except.ok none, s1, t1) => (Except.error RError.typeError, s1, t1)
    | (Except.ok (some item), s1, t1) =>
      if strOptFalsy item.BlobURLGet then
        (Except.error RError.blobNotFound, s1, t1)
      else
        match item.BlobURLGet with
        | none => (Except.error RError.blobNotFound, s1, t1)
        | some u =>
          (Except.ok ((env.streamChunks u).foldr (fun a b => a ++ b) []),
            s1, t1 ++ [Call.streamGet u])

/-- Method `uploadZip(name, ID, zipFile)`: the three-phase upload.
Requires a session token; resolves the storage endpoint; phase 1 `PUT`s
the upload request and fails when `body[0].Success` is falsy or
`body[0].BlobURLPut` is falsy; phase 2 `PUT`s the container bytes to the
write URL and fails when the status is not 200; phase 3 resolves the
endpoint again (cached by now) and `PUT`s the metadata update, failing
when its `Success` is falsy, else returns the service-confirmed `ID`. -/
def uploadZip (name : String) (ID : String)
    (zipFile : List (String × ZipEntry)) (env : Env) (s : RState) :
    RResult String :=
  match s.token with
  | none => (Except.error RError.authenticationRequired, s, [])
  | some _ =>
    match getStorageUrl env s with
    | (Except.error e, s1, t1) => (Except.error e, s1, t1)
    | (Except.ok _, s1, t1) =>
      let t2 := t1 ++ [Call.putUploadRequest ID]
      match (env.uploadRequestResp ID).head? with
      | none => (Except.error RError.typeError, s1, t2)
      | some r =>
        if r.Success = false ∨ strOptFalsy r.BlobURLPut then
          (Except.error RError.uploadRequest, s1, t2)
        else
          match r.BlobURLPut with
          | none => (Except.error RError.uploadRequest, s1, t2)
          | some u =>
            let t3 := t2 ++ [Call.putBlob u zipFile]
            if env.blobPutStatus u ≠ 200 then
              (Except.error RError.uploadTransfer, s1, t3)
            else
              match getStorageUrl env s1 with
              | (Except.error e, s2, t4) => (Except.error e, s2, t3 ++ t4)
              | (Except.ok _, s2, t4) =>
                let t5 := t3 ++ t4 ++ [Call.putUpdateStatus ID name]
                match (env.updateStatusResp ID).head? with
                | none => (Except.error RError.typeError, s2, t5)
                | some r2 =>
                  if r2.Success then (Except.ok r2.ID, s2, t5)
                  else (Except.error RError.metadataUpdate, s2, t5)

/-- Method `uploadPDF(name, file)`: requires a session token, draws a
fresh UUID, adds the three package entries to the instance's JSZip,
serializes it and hands it to `uploadZip`; only on success does it
replace the JSZip with a fresh empty one (`this.zip = new JSZip()` is
unreachable when `uploadZip` throws) before returning the generated id. -/
def uploadPDF (name : String) (file : List Nat) (env : Env) (s : RState) :
    RResult String :=
  match s.token with
  | none => (Except.error RError.authenticationRequired, s, [])
  | some _ =>
    let ID := env.uuidSeq s.uuidCounter
    let e1 := zipFileAdd s.zipEntries (ID ++ ".content")
      (ZipEntry.contentDescriptor defaultPDFContent)
    let e2 := zipFileAdd e1 (ID ++ ".pagedata") ZipEntry.emptyEntry
    let e3 := zipFileAdd e2 (ID ++ ".pdf") (ZipEntry.pdfBytes file)
    let s1 := { s with zipEntries := e3, uuidCounter := s.uuidCounter + 1 }
    match uploadZip name ID e3 env s1 with
    | (Except.ok _, s2, t2) =>
      (Except.ok ID, { s2 with zipEntries := [] }, t2)
    | (Except.error e, s2, t2) => (Except.error e, s2, t2)

/-- The three-entry Document Package `uploadPDF` builds for id `ID` and
raw bytes `file`. -/
def pdfPackage (ID : String) (file : List Nat) :
    List (String × ZipEntry) :=
  [(ID ++ ".content", ZipEntry.contentDescriptor defaultPDFContent),
   (ID ++ ".pagedata", ZipEntry.emptyEntry),
   (ID ++ ".pdf", ZipEntry.pdfBytes file)]

/-- Instance invariant relating the endpoint caches to the session
token: an endpoint may only be cached once a session token is set. -/
def endpointInv (s : RState) : Prop :=
  (s.storageUrl.isSome ∨ s.notificationUrl.isSome) → s.token.isSome

/-- Payloads of the transfer-phase (`putBlob`) requests of a trace. -/
def putBlobPayloads : List Call → List (List (String × ZipEntry))
  | [] => []
  | Call.putBlob _ p :: rest => p :: putBlobPayloads rest
  | _ :: rest => putBlobPayloads rest

/-- Concrete service behaviour used by the witness instantiations: every
request succeeds; item `doc1` carries a blob reference, item `noblob`
does not, any other id is unknown; a delete succeeds only at version 2. -/
def envW : Env :=
  { tokenResp := Except.ok "stok"
    registerResp := Except.ok "dtok"
    storageHost := Except.ok "storage.example"
    notificationsHost := Except.ok "notif.example"
    docs := fun d _ =>
      match d with
      | some "doc1" =>
        [{ ID := "doc1", Version := 2, VissibleName := "Doc"
           BlobURLGet := some "https://blob.example/doc1"
           BlobURLPut := none }]
      | some "noblob" =>
        [{ ID := "noblob", Version := 1, VissibleName := "NB"
           BlobURLGet := none, BlobURLPut := none }]
      | _ => []
    deleteResp := fun id v =>
      if v = 2 then [{ ID := id, Success := true }]
      else [{ ID := id, Success := false }]
    uploadRequestResp := fun id =>
      [{ ID := id, Success := true, BlobURLPut := some "https://put.example/slot" }]
    blobPutStatus := fun _ => 200
    updateStatusResp := fun id => [{ ID := id, Success := true }]
    streamChunks := fun _ => [[1, 2], [3]]
    uuidSeq := fun n => if n = 0 then "u0" else "u1" }

/-- Same service, but the upload-request phase reports failure. -/
def envReqFail : Env :=
  { envW with
    uploadRequestResp := fun id =>
      [{ ID := id, Success := false, BlobURLPut := none }] }

/-- Same service, but the session-token refresh fails at the transport. -/
def envRefreshFail : Env :=
  { envW with tokenResp := Except.error () }

/-- A freshly constructed instance with no device token. -/
def sFresh : RState := mkRemarkable none

/-- An instance that has registered, refreshed its session token and
already resolved the storage endpoint. -/
def sAuth : RState :=
  { token := some "stok"
    deviceToken := some "dtok"
    storageUrl := some "https://storage.example"
    notificationUrl := none
    zipEntries := []
    uuidCounter := 0 }

/-- The state `sAuth` reaches after additionally resolving the
notifications endpoint against `envW`. -/
def sNotif : RState :=
  { sAuth with notificationUrl := some "wss://notif.example" }

/-! Helper lemmas about endpoint resolution and state evolution. -/

theorem getStorageUrl_cached (env : Env) (s : RState) (u : String)
    (h : s.storageUrl = some u) :
    getStorageUrl env s = (Except.ok u, s, []) := by
  simp [getStorageUrl, h]

theorem getNotificationsUrl_cached (env : Env) (s : RState) (u : String)
    (h : s.notificationUrl = some u) :
    getNotificationsUrl env s = (Except.ok u, s, []) := by
  simp [getNotificationsUrl, h]

theorem getStorageUrl_ok_cache (env : Env) (s : RState) (u : String)
    (s1 : RState) (t1 : List Call)
    (h : getStorageUrl env s = (Except.ok u, s1, t1)) :
    s1.storageUrl = some u := by
  unfold getStorageUrl at h
  split at h
  · simp_all
  · split at h
    · simp_all
    · split at h
      · simp_all
      · simp only [Prod.mk.injEq, Except.ok.injEq] at h
        obtain ⟨hu, hs1, -⟩ := h
        subst hs1
        simp [hu]

theorem getNotificationsUrl_ok_cache (env : Env) (s : RState) (u : String)
    (s1 : RState) (t1 : List Call)
    (h : getNotificationsUrl env s = (Except.ok u, s1, t1)) :
    s1.notificationUrl = some u := by
  unfold getNotificationsUrl at h
  split at h
  · simp_all
  · split at h
    · simp_all
    · split at h
      · simp_all
      · simp only [Prod.mk.injEq, Except.ok.injEq] at h
        obtain ⟨hu, hs1, -⟩ := h
        subst hs1
        simp [hu]

theorem refreshToken_endpoints (env : Env) (s : RState) :
    (refreshToken env s).2.1.storageUrl = s.storageUrl ∧
    (refreshToken env s).2.1.notificationUrl = s.notificationUrl := by
  unfold refreshToken
  cases s.deviceToken <;> simp [setToken]
  cases env.tokenResp <;> simp [setToken]

/-- Claim C1: in the three-phase upload protocol (`uploadZip`), if the
request phase's response marks failure or omits a write URL, the
operation fails with `UploadRequestError` and the transfer phase and
finalize phase are never attempted: the trace stops at the
upload-request call and contains no `putBlob` and no `putUpdateStatus`
request. -/
theorem upload_phase1_failure_aborts (env : Env) (s : RState)
    (name ID : String) (z : List (String × ZipEntry)) (tok u : String)
    (r : UploadRequestReturnType)
    (htok : s.token = some tok) (hurl : s.storageUrl = some u)
    (hr : (env.uploadRequestResp ID).head? = some r)
    (hfail : r.Success = false ∨ r.BlobURLPut = none) :
    uploadZip name ID z env s =
      (Except.error RError.uploadRequest, s, [Call.putUploadRequest ID]) ∧
    ∀ c ∈ (uploadZip name ID z env s).2.2,
      c.isPutBlob = false ∧ c.isPutUpdateStatus = false := by
  have key : uploadZip name ID z env s =
      (Except.error RError.uploadRequest, s, [Call.putUploadRequest ID]) := by
    simp only [uploadZip, htok, getStorageUrl_cached env s u hurl, hr,
      List.nil_append]
    rcases hfail with hf | hf
    · simp [hf]
    · simp [hf, strOptFalsy]
  refine ⟨key, ?_⟩
  rw [key]
  intro c hc
  simp only [List.mem_singleton] at hc
  subst hc
  exact ⟨rfl, rfl⟩

/-- Witness for C1: a concrete authorized instance whose upload-request
phase reports failure. -/
theorem upload_phase1_failure_aborts_witness :
    uploadZip "Doc" "u0" [] envReqFail sAuth =
      (Except.error RError.uploadRequest, sAuth, [Call.putUploadRequest "u0"]) ∧
    ∀ c ∈ (uploadZip "Doc" "u0" [] envReqFail sAuth).2.2,
      c.isPutBlob = false ∧ c.isPutUpdateStatus = false :=
  upload_phase1_failure_aborts envReqFail sAuth "Doc" "u0" [] "stok"
    "https://storage.example"
    { ID := "u0", Success := false, BlobURLPut := none }
    rfl rfl rfl (Or.inl rfl)

/-- Claim C3: every operation requiring authorization, called on an
instance that has no session token (and hence no cached endpoint),
fails with `AuthenticationRequiredError`, leaves the state unchanged,
and issues no storage or transfer request (empty trace). -/
theorem auth_required_without_refresh (env : Env) (s : RState)
    (doc : Option String) (withBlob : Bool) (id delId : String)
    (version : Nat) (name ID : String) (z : List (String × ZipEntry))
    (file : List Nat)
    (htok : s.token = none) (hsu : s.storageUrl = none)
    (hnu : s.notificationUrl = none) :
    listItems doc withBlob env s =
      (Except.error RError.authenticationRequired, s, []) ∧
    getItemWithId id env s =
      (Except.error RError.authenticationRequired, s, []) ∧
    getAllItems env s =
      (Except.error RError.authenticationRequired, s, []) ∧
    deleteItem delId version env s =
      (Except.error RError.authenticationRequired, s, []) ∧
    downloadZip id env s =
      (Except.error RError.authenticationRequired, s, []) ∧
    uploadZip name ID z env s =
      (Except.error RError.authenticationRequired, s, []) ∧
    uploadPDF name file env s =
      (Except.error RError.authenticationRequired, s, []) ∧
    getStorageUrl env s =
      (Except.error RError.authenticationRequired, s, []) ∧
    getNotificationsUrl env s =
      (Except.error RError.authenticationRequired, s, []) := by
  have hstore : getStorageUrl env s =
      (Except.error RError.authenticationRequired, s, []) := by
    simp [getStorageUrl, htok, hsu]
  have hlist : ∀ d w, listItems d w env s =
      (Except.error RError.authenticationRequired, s, []) := by
    intro d w
    simp [listItems, htok]
  refine ⟨hlist _ _, ?_, hlist _ _, ?_, ?_, ?_, ?_, hstore, ?_⟩
  · simp [getItemWithId, hlist]
  · simp [deleteItem, hstore]
  · simp [downloadZip, htok]
  · simp [uploadZip, htok]
  · simp [uploadPDF, htok]
  · simp [getNotificationsUrl, htok, hnu]

/-- Witness for C3: a freshly constructed instance. -/
theorem auth_required_without_refresh_witness :
    listItems none true envW sFresh =
      (Except.error RError.authenticationRequired, sFresh, []) ∧
    getItemWithId "doc1" envW sFresh =
      (Except.error RError.authenticationRequired, sFresh, []) ∧
    getAllItems envW sFresh =
      (Except.error RError.authenticationRequired, sFresh, []) ∧
    deleteItem "doc1" 1 envW sFresh =
      (Except.error RError.authenticationRequired, sFresh, []) ∧
    downloadZip "doc1" envW sFresh =
      (Except.error RError.authenticationRequired, sFresh, []) ∧
    uploadZip "Doc" "u0" [] envW sFresh =
      (Except.error RError.authenticationRequired, sFresh, []) ∧
    uploadPDF "Doc" [7] envW sFresh =
      (Except.error RError.authenticationRequired, sFresh, []) ∧
    getStorageUrl envW sFresh =
      (Except.error RError.authenticationRequired, sFresh, []) ∧
    getNotificationsUrl envW sFresh =
      (Except.error RError.authenticationRequired, sFresh, []) :=
  auth_required_without_refresh envW sFresh none true "doc1" "doc1" 1
    "Doc" "u0" [] [7] rfl rfl rfl

/-- Claim C4: once `getStorageUrl` / `getNotificationsUrl` has resolved
its endpoint, a later call returns the identical cached value with no
further discovery request (empty trace, unchanged state), even under a
different service environment and even after an intervening
`refreshToken`. -/
theorem endpoint_resolution_idempotent (env env2 env3 : Env)
    (sA sB s1 s2 : RState) (u v : String) (t1 t2 : List Call)
    (hs : getStorageUrl env sA = (Except.ok u, s1, t1))
    (hn : getNotificationsUrl env sB = (Except.ok v, s2, t2)) :
    (getStorageUrl env2 s1 = (Except.ok u, s1, []) ∧
     getStorageUrl env2 (refreshToken env3 s1).2.1 =
       (Except.ok u, (refreshToken env3 s1).2.1, [])) ∧
    (getNotificationsUrl env2 s2 = (Except.ok v, s2, []) ∧
     getNotificationsUrl env2 (refreshToken env3 s2).2.1 =
       (Except.ok v, (refreshToken env3 s2).2.1, [])) := by
  have h1 := getStorageUrl_ok_cache env sA u s1 t1 hs
  have h2 := getNotificationsUrl_ok_cache env sB v s2 t2 hn
  have hr1 := (refreshToken_endpoints env3 s1).1
  have hr2 := (refreshToken_endpoints env3 s2).2
  exact ⟨⟨getStorageUrl_cached _ _ _ h1,
          getStorageUrl_cached _ _ _ (by rw [hr1, h1])⟩,
         ⟨getNotificationsUrl_cached _ _ _ h2,
          getNotificationsUrl_cached _ _ _ (by rw [hr2, h2])⟩⟩

/-- Witness for C4: concrete resolutions of both endpoints, re-queried
after a concrete `refreshToken`. -/
theorem endpoint_resolution_idempotent_witness :
    (getStorageUrl envW sAuth = (Except.ok "https://storage.example", sAuth, []) ∧
     getStorageUrl envW (refreshToken envW sAuth).2.1 =
       (Except.ok "https://storage.example", (refreshToken envW sAuth).2.1, [])) ∧
    (getNotificationsUrl envW sNotif = (Except.ok "wss://notif.example", sNotif, []) ∧
     getNotificationsUrl envW (refreshToken envW sNotif).2.1 =
       (Except.ok "wss://notif.example", (refreshToken envW sNotif).2.1, [])) :=
  endpoint_resolution_idempotent envW envW envW sAuth sAuth sAuth sNotif
    "https://storage.example" "wss://notif.example" []
    [Call.getDiscoveryNotifications] rfl rfl

/-- Claim C5: `register` stores the device token and then triggers the
dependent session-token refresh; when that refresh fails, the `register`
call as a whole fails, yet the device token remains stored on the
instance. -/
theorem register_retains_device_token (env : Env) (s : RState)
    (code dtok : String)
    (hc : code ≠ "")
    (hreg : env.registerResp = Except.ok dtok)
    (htok : env.tokenResp = Except.error ()) :
    (register code env s).1 = Except.error RError.transport ∧
    (register code env s).2.1.deviceToken = some dtok := by
  simp [register, hc, hreg, refreshToken, htok]

/-- Witness for C5: registering with code `ABC123` against a service
whose token refresh fails. -/
theorem register_retains_device_token_witness :
    (register "ABC123" envRefreshFail sFresh).1 =
      Except.error RError.transport ∧
    (register "ABC123" envRefreshFail sFresh).2.1.deviceToken =
      some "dtok" :=
  register_retains_device_token envRefreshFail sFresh "ABC123" "dtok"
    (by decide) rfl rfl

/-- Claim C6: `deleteItem(id, version)` returns the boolean success flag
of the service's per-item result (no exception is raised whatever the
flag is); a stale version surfaces as `Except.ok false`. -/
theorem deleteItem_returns_service_flag (env : Env) (s : RState)
    (id : String) (version : Nat) (u : String) (r : ReturnType)
    (hurl : s.storageUrl = some u)
    (hr : (env.deleteResp id version).head? = some r) :
    deleteItem id version env s =
      (Except.ok r.Success, s, [Call.putDelete id version]) := by
  simp [deleteItem, getStorageUrl_cached env s u hurl, hr]

/-- Witness for C6: deleting `doc1` with the stale version 1 (the
service only accepts version 2) yields `Except.ok false` and no
exception. -/
theorem deleteItem_returns_service_flag_witness :
    deleteItem "doc1" 1 envW sAuth =
      (Except.ok false, sAuth, [Call.putDelete "doc1" 1]) :=
  deleteItem_returns_service_flag envW sAuth "doc1" 1
    "https://storage.example" { ID := "doc1", Success := false } rfl rfl

/-- Claim C7: when the item record exists but its `BlobURLGet` reference
is absent, `downloadZip` fails with `BlobNotFoundError` and no stream
request is issued. -/
theorem download_missing_blob_fails (env : Env) (s : RState)
    (id tok u : String) (item : ItemResponse) (rest : List ItemResponse)
    (htok : s.token = some tok) (hurl : s.storageUrl = some u)
    (hdocs : env.docs (some id) true = item :: rest)
    (hblob : item.BlobURLGet = none) :
    downloadZip id env s =
      (Except.error RError.blobNotFound, s, [Call.getDocs (some id) true]) ∧
    ∀ c ∈ (downloadZip id env s).2.2, c.isStreamGet = false := by
  have key : downloadZip id env s =
      (Except.error RError.blobNotFound, s, [Call.getDocs (some id) true]) := by
    simp [downloadZip, getItemWithId, listItems, htok,
      getStorageUrl_cached env s u hurl, hdocs, hblob, strOptFalsy]
  refine ⟨key, ?_⟩
  rw [key]
  intro c hc
  simp only [List.mem_singleton] at hc
  subst hc
  rfl

/-- Witness for C7: item `noblob` of `envW` has no `BlobURLGet`. -/
theorem download_missing_blob_fails_witness :
    downloadZip "noblob" envW sAuth =
      (Except.error RError.blobNotFound, sAuth,
        [Call.getDocs (some "noblob") true]) ∧
    ∀ c ∈ (downloadZip "noblob" envW sAuth).2.2, c.isStreamGet = false :=
  download_missing_blob_fails envW sAuth "noblob" "stok"
    "https://storage.example"
    { ID := "noblob", Version := 1, VissibleName := "NB"
      BlobURLGet := none, BlobURLPut := none } [] rfl rfl rfl rfl

/-- Claim C10: when the service returns an empty result set for an id,
`getItemWithId` produces the absent (`none`) result, and `downloadZip`
on that id fails by destructuring the absent item — a `TypeError`
distinct from `BlobNotFoundError` — before any stream is opened. -/
theorem download_absent_item_type_error (env : Env) (s : RState)
    (id tok u : String)
    (htok : s.token = some tok) (hurl : s.storageUrl = some u)
    (hdocs : env.docs (some id) true = []) :
    getItemWithId id env s =
      (Except.ok none, s, [Call.getDocs (some id) true]) ∧
    downloadZip id env s =
      (Except.error RError.typeError, s, [Call.getDocs (some id) true]) ∧
    RError.typeError ≠ RError.blobNotFound ∧
    ∀ c ∈ (downloadZip id env s).2.2, c.isStreamGet = false := by
  have hget : getItemWithId id env s =
      (Except.ok none, s, [Call.getDocs (some id) true]) := by
    simp [getItemWithId, listItems, htok,
      getStorageUrl_cached env s u hurl, hdocs]
  have hdl : downloadZip id env s =
      (Except.error RError.typeError, s, [Call.getDocs (some id) true]) := by
    simp [downloadZip, htok, hget]
  refine ⟨hget, hdl, by decide, ?_⟩
  rw [hdl]
  intro c hc
  simp only [List.mem_singleton] at hc
  subst hc
  rfl

/-- Witness for C10: id `missing` is unknown to `envW`. -/
theorem download_absent_item_type_error_witness :
    getItemWithId "missing" envW sAuth =
      (Except.ok none, sAuth, [Call.getDocs (some "missing") true]) ∧
    downloadZip "missing" envW sAuth =
      (Except.error RError.typeError, sAuth,
        [Call.getDocs (some "missing") true]) ∧
    RError.typeError ≠ RError.blobNotFound ∧
    ∀ c ∈ (downloadZip "missing" envW sAuth).2.2, c.isStreamGet = false :=
  download_absent_item_type_error envW sAuth "missing" "stok"
    "https://storage.example" rfl rfl rfl

theorem append_right_ne (i : String) {a b : String} (h : a ≠ b) :
    i ++ a ≠ i ++ b := by
  intro he
  apply h
  apply String.ext
  have hd := congrArg String.data he
  simp only [String.data_append] at hd
  exact List.append_cancel_left hd

theorem pdfPackage_build (ID : String) (file : List Nat) :
    zipFileAdd (zipFileAdd (zipFileAdd [] (ID ++ ".content")
        (ZipEntry.contentDescriptor defaultPDFContent))
        (ID ++ ".pagedata") ZipEntry.emptyEntry)
      (ID ++ ".pdf") (ZipEntry.pdfBytes file) = pdfPackage ID file := by
  have h12 : ID ++ ".content" ≠ ID ++ ".pagedata" :=
    append_right_ne ID (by decide)
  have h13 : ID ++ ".content" ≠ ID ++ ".pdf" :=
    append_right_ne ID (by decide)
  have h23 : ID ++ ".pagedata" ≠ ID ++ ".pdf" :=
    append_right_ne ID (by decide)
  simp [zipFileAdd, pdfPackage, h12, h13, h23]

/-- Claim C8: starting from an empty package, `uploadPDF` builds exactly
the three entries `<id>.content` (the default content descriptor, with
zero page count, empty transform, margins 180, text scale 1 and line
height -1), `<id>.pagedata` (empty) and `<id>.pdf` (the raw input
bytes), where `id` is the freshly generated document id, and hands that
package to `uploadZip`; on success it returns the generated id, and any
failure of the transfer pipeline is propagated unchanged. -/
theorem uploadPDF_builds_package (env : Env) (s : RState)
    (name : String) (file : List Nat) (tok : String)
    (htok : s.token = some tok) (hz : s.zipEntries = []) :
    (defaultPDFContent.pageCount = 0 ∧ defaultPDFContent.transform = [] ∧
     defaultPDFContent.margins = 180 ∧ defaultPDFContent.textScale = 1 ∧
     defaultPDFContent.lineHeight = -1) ∧
    ∀ r s2 t2,
      uploadZip name (env.uuidSeq s.uuidCounter)
          (pdfPackage (env.uuidSeq s.uuidCounter) file) env
          { s with zipEntries := pdfPackage (env.uuidSeq s.uuidCounter) file,
                   uuidCounter := s.uuidCounter + 1 } = (r, s2, t2) →
        (∀ x, r = Except.ok x →
          uploadPDF name file env s =
            (Except.ok (env.uuidSeq s.uuidCounter),
             { s2 with zipEntries := [] }, t2)) ∧
        (∀ e, r = Except.error e →
          uploadPDF name file env s = (Except.error e, s2, t2)) := by
  refine ⟨⟨rfl, rfl, rfl, rfl, rfl⟩, ?_⟩
  intro r s2 t2 hrun
  rw [htok] at hrun
  constructor
  · intro x hx
    subst hx
    simp only [uploadPDF, htok, hz, pdfPackage_build]
    rw [hrun]
  · intro e he
    subst he
    simp only [uploadPDF, htok, hz, pdfPackage_build]
    rw [hrun]

/-- Witness for C8: a concrete successful upload of `Report` through
`envW`, returning the generated id `u0`. -/
theorem uploadPDF_builds_package_witness :
    (defaultPDFContent.pageCount = 0 ∧ defaultPDFContent.transform = [] ∧
     defaultPDFContent.margins = 180 ∧ defaultPDFContent.textScale = 1 ∧
     defaultPDFContent.lineHeight = -1) ∧
    uploadPDF "Report" [7] envW sAuth =
      (Except.ok "u0",
        { token := some "stok", deviceToken := some "dtok"
          storageUrl := some "https://storage.example"
          notificationUrl := none, zipEntries := [], uuidCounter := 1 },
        [Call.putUploadRequest "u0",
         Call.putBlob "https://put.example/slot" (pdfPackage "u0" [7]),
         Call.putUpdateStatus "u0" "Report"]) := by
  refine ⟨(uploadPDF_builds_package envW sAuth "Report" [7] "stok" rfl rfl).1, ?_⟩
  exact ((uploadPDF_builds_package envW sAuth "Report" [7] "stok" rfl rfl).2
    (Except.ok "u0")
    { token := some "stok", deviceToken := some "dtok"
      storageUrl := some "https://storage.example"
      notificationUrl := none
      zipEntries := pdfPackage "u0" [7], uuidCounter := 1 }
    [Call.putUploadRequest "u0",
     Call.putBlob "https://put.example/slot" (pdfPackage "u0" [7]),
     Call.putUpdateStatus "u0" "Report"]
    (by rfl)).1 "u0" rfl

/-- Claim C2 fails on the code: `this.zip = new JSZip()` sits after the
`await uploadZip(...)` and is therefore skipped when the upload fails,
so the package of a failed `uploadPDF` is retained on the instance and
the next invocation does not start from an empty package: its transfer
phase carries a six-entry container holding the previous call's three
entries as well. -/
theorem uploadPDF_package_retained_on_failure :
    (uploadPDF "Doc" [7] envReqFail sAuth).1 =
      Except.error RError.uploadRequest ∧
    (uploadPDF "Doc" [7] envReqFail sAuth).2.1.zipEntries =
      pdfPackage "u0" [7] ∧
    putBlobPayloads
        (uploadPDF "Doc2" [9] envW
          (uploadPDF "Doc" [7] envReqFail sAuth).2.1).2.2 =
      [pdfPackage "u0" [7] ++ pdfPackage "u1" [9]] :=
  ⟨rfl, rfl, rfl⟩

theorem inv_refreshToken (env : Env) (s : RState) (h : endpointInv s) :
    endpointInv (refreshToken env s).2.1 := by
  unfold refreshToken
  cases s.deviceToken with
  | none => exact h
  | some d =>
    cases env.tokenResp with
    | error e => exact h
    | ok body =>
      intro _
      rfl

theorem inv_getStorageUrl (env : Env) (s : RState) (h : endpointInv s) :
    endpointInv (getStorageUrl env s).2.1 := by
  unfold getStorageUrl
  cases s.storageUrl with
  | some u => exact h
  | none =>
    cases s.token with
    | none => exact h
    | some tok =>
      cases env.storageHost with
      | error e => exact h
      | ok host =>
        intro _
        rfl

theorem inv_getNotificationsUrl (env : Env) (s : RState)
    (h : endpointInv s) : endpointInv (getNotificationsUrl env s).2.1 := by
  unfold getNotificationsUrl
  cases s.notificationUrl with
  | some u => exact h
  | none =>
    cases s.token with
    | none => exact h
    | some tok =>
      cases env.notificationsHost with
      | error e => exact h
      | ok host =>
        intro _
        rfl

theorem inv_register (code : String) (env : Env) (s : RState)
    (h : endpointInv s) : endpointInv (register code env s).2.1 := by
  unfold register
  split
  · exact h
  · split
    · exact h
    · rename_i body heq
      have h1 : endpointInv { s with deviceToken := some body } := h
      have h2 := inv_refreshToken env { s with deviceToken := some body } h1
      dsimp only
      split
      · rename_i heq2
        rw [heq2] at h2
        exact h2
      · rename_i heq2
        rw [heq2] at h2
        exact h2

theorem inv_listItems (doc : Option String) (withBlob : Bool) (env : Env)
    (s : RState) (h : endpointInv s) :
    endpointInv (listItems doc withBlob env s).2.1 := by
  unfold listItems
  split
  · exact h
  · have hg := inv_getStorageUrl env s h
    split
    · rename_i heq
      rw [heq] at hg
      exact hg
    · rename_i heq
      rw [heq] at hg
      exact hg

theorem inv_getItemWithId (id : String) (env : Env) (s : RState)
    (h : endpointInv s) : endpointInv (getItemWithId id env s).2.1 := by
  unfold getItemWithId
  have hl := inv_listItems (some id) true env s h
  split
  · rename_i heq
    rw [heq] at hl
    exact hl
  · rename_i heq
    rw [heq] at hl
    exact hl

theorem inv_getAllItems (env : Env) (s : RState) (h : endpointInv s) :
    endpointInv (getAllItems env s).2.1 :=
  inv_listItems none true env s h

theorem inv_deleteItem (id : String) (version : Nat) (env : Env)
    (s : RState) (h : endpointInv s) :
    endpointInv (deleteItem id version env s).2.1 := by
  unfold deleteItem
  have hg := inv_getStorageUrl env s h
  split
  · rename_i heq
    rw [heq] at hg
    exact hg
  · rename_i heq
    rw [heq] at hg
    dsimp only
    split
    · exact hg
    · exact hg

theorem inv_downloadZip (id : String) (env : Env) (s : RState)
    (h : endpointInv s) : endpointInv (downloadZip id env s).2.1 := by
  unfold downloadZip
  split
  · exact h
  · have hg := inv_getItemWithId id env s h
    split
    · rename_i heq
      rw [heq] at hg
      exact hg
    · rename_i heq
      rw [heq] at hg
      exact hg
    · rename_i heq
      rw [heq] at hg
      split
      · exact hg
      · split
        · exact hg
        · exact hg

theorem inv_uploadZip (name ID : String)
    (z : List (String × ZipEntry)) (env : Env) (s : RState)
    (h : endpointInv s) : endpointInv (uploadZip name ID z env s).2.1 := by
  unfold uploadZip
  split
  · exact h
  · have hg := inv_getStorageUrl env s h
    split
    · rename_i heq
      rw [heq] at hg
      exact hg
    · rename_i heq
      rw [heq] at hg
      dsimp only
      split
      · exact hg
      · split
        · exact hg
        · split
          · exact hg
          · split
            · exact hg
            · have hg2 := inv_getStorageUrl env _ hg
              split
              · rename_i heq2
                rw [heq2] at hg2
                exact hg2
              · rename_i heq2
                rw [heq2] at hg2
                split
                · exact hg2
                · split
                  · exact hg2
                  · exact hg2

theorem inv_uploadPDF (name : String) (file : List Nat) (env : Env)
    (s : RState) (h : endpointInv s) :
    endpointInv (uploadPDF name file env s).2.1 := by
  unfold uploadPDF
  split
  · exact h
  · dsimp only
    have h1 : endpointInv
        { s with
          zipEntries := zipFileAdd (zipFileAdd (zipFileAdd s.zipEntries
              (env.uuidSeq s.uuidCounter ++ ".content")
              (ZipEntry.contentDescriptor defaultPDFContent))
              (env.uuidSeq s.uuidCounter ++ ".pagedata") ZipEntry.emptyEntry)
            (env.uuidSeq s.uuidCounter ++ ".pdf") (ZipEntry.pdfBytes file)
          uuidCounter := s.uuidCounter + 1 } := h
    have h2 := inv_uploadZip name (env.uuidSeq s.uuidCounter)
      (zipFileAdd (zipFileAdd (zipFileAdd s.zipEntries
          (env.uuidSeq s.uuidCounter ++ ".content")
          (ZipEntry.contentDescriptor defaultPDFContent))
          (env.uuidSeq s.uuidCounter ++ ".pagedata") ZipEntry.emptyEntry)
        (env.uuidSeq s.uuidCounter ++ ".pdf") (ZipEntry.pdfBytes file))
      env
      { s with
        zipEntries := zipFileAdd (zipFileAdd (zipFileAdd s.zipEntries
            (env.uuidSeq s.uuidCounter ++ ".content")
            (ZipEntry.contentDescriptor defaultPDFContent))
            (env.uuidSeq s.uuidCounter ++ ".pagedata") ZipEntry.emptyEntry)
          (env.uuidSeq s.uuidCounter ++ ".pdf") (ZipEntry.pdfBytes file)
        uuidCounter := s.uuidCounter + 1 } h1
    split
    · rename_i heq
      rw [heq] at h2
      exact h2
    · rename_i heq
      rw [heq] at h2
      exact h2

/-- Claim C9: the invariant "whenever the cached storage endpoint or the
cached notification endpoint is set, the session token is also set"
holds of a freshly constructed instance and is preserved by every
operation, so no endpoint can ever be cached on an instance that has
never obtained a session token. -/
theorem endpoint_requires_token_invariant (env : Env) (s : RState)
    (d : Option String) (doc : Option String) (withBlob : Bool)
    (code id delId : String) (version : Nat) (name ID : String)
    (z : List (String × ZipEntry)) (file : List Nat)
    (h : endpointInv s) :
    endpointInv (mkRemarkable d) ∧
    endpointInv (refreshToken env s).2.1 ∧
    endpointInv (register code env s).2.1 ∧
    endpointInv (getStorageUrl env s).2.1 ∧
    endpointInv (getNotificationsUrl env s).2.1 ∧
    endpointInv (listItems doc withBlob env s).2.1 ∧
    endpointInv (getItemWithId id env s).2.1 ∧
    endpointInv (getAllItems env s).2.1 ∧
    endpointInv (deleteItem delId version env s).2.1 ∧
    endpointInv (downloadZip id env s).2.1 ∧
    endpointInv (uploadZip name ID z env s).2.1 ∧
    endpointInv (uploadPDF name file env s).2.1 :=
  ⟨fun hor => by simp [mkRemarkable] at hor,
   inv_refreshToken env s h,
   inv_register code env s h,
   inv_getStorageUrl env s h,
   inv_getNotificationsUrl env s h,
   inv_listItems doc withBlob env s h,
   inv_getItemWithId id env s h,
   inv_getAllItems env s h,
   inv_deleteItem delId version env s h,
   inv_downloadZip id env s h,
   inv_uploadZip name ID z env s h,
   inv_uploadPDF name file env s h⟩

/-- Witness for C9 at the concrete authorized instance `sAuth` and
service `envW`. -/
theorem endpoint_requires_token_invariant_witness :
    endpointInv (mkRemarkable none) ∧
    endpointInv (refreshToken envW sAuth).2.1 ∧
    endpointInv (register "ABC123" envW sAuth).2.1 ∧
    endpointInv (getStorageUrl envW sAuth).2.1 ∧
    endpointInv (getNotificationsUrl envW sAuth).2.1 ∧
    endpointInv (listItems none true envW sAuth).2.1 ∧
    endpointInv (getItemWithId "doc1" envW sAuth).2.1 ∧
    endpointInv (getAllItems envW sAuth).2.1 ∧
    endpointInv (deleteItem "doc1" 2 envW sAuth).2.1 ∧
    endpointInv (downloadZip "doc1" envW sAuth).2.1 ∧
    endpointInv (uploadZip "Doc" "u0" [] envW sAuth).2.1 ∧
    endpointInv (uploadPDF "Doc" [7] envW sAuth).2.1 :=
  endpoint_requires_token_invariant envW sAuth none none true
    "ABC123" "doc1" "doc1" 2 "Doc" "u0" [] [7]
    (fun _ => rfl)
